import Mathlib

/-!
Verification development for the `tell` UDP chat library.

The definitions below are a shallow embedding of the Rust sources:
  - `src/tell_lib/src/id.rs`            (identity and its validation)
  - `src/tell_lib/src/packet.rs`        (packet data model)
  - `src/tell_lib/src/header.rs`        (packet header)
  - `src/tell_lib/src/util.rs`          (transfer metrics)
  - `src/tell_lib/src/net/conn.rs`      (per-peer connection record)
  - `src/tell_lib/src/net/shared_state.rs` (connection table)
  - `src/tell_lib/src/net/adapter.rs`   (receive / maintenance passes)
  - `src/tell_lib/src/net/server.rs`    (server protocol engine)
  - `src/tell_lib/src/net/client.rs`    (client protocol engine)

Modelling conventions:
  - Rust `HashMap` is an association list; `insert` on an absent key is
    `cons`, in-place mutation through `get_mut` is `mapUpdate`, `remove`
    is `mapErase` (lookup finds the first matching key).
  - `Instant` time stamps are rationals; `elapsed()` becomes `now - t`
    with an explicit `now` parameter threaded through the functions that
    call `Instant::now()` in Rust.
  - `u128`/`u64` counters wrap modulo `2 ^ 128` / `2 ^ 64`.
  - Rust functions on `&mut self` returning `TResult` become functions
    returning the new state together with an `Except`/result value; a
    reachable `todo!()` or `Option::unwrap` on `None` is the explicit
    outcome `panicked`.
  - Socket transmission and the binary codec are external collaborators;
    only their state effects (metrics) and sizes appear here.
  - Error message strings from Rust `format!` calls are abbreviated to
    the constructor name of the offending packet.
-/

namespace Tell

/-- Network address (stands in for Rust `std::net::SocketAddr`). -/
structure SocketAddr where
  ip : Nat
  port : Nat
deriving DecidableEq, Repr

/-- `Id` from `id.rs`: participant name plus creation-time stamp. -/
structure Id where
  name : String
  sign : Nat
deriving DecidableEq, Repr

/-- `LibErr` from `err.rs`. -/
inductive LibErr where
  | InvalidTimestamp (a b : Nat)
  | InvalidName (name : String)
  | InvalidPacketType (msg : String)
  | PeerAlreadyConnected (addr : SocketAddr)
  | PeerNotConnected (addr : SocketAddr)
  | MaxConnectionsReached (n : Nat)
  | NotConnected
deriving DecidableEq, Repr

/-- `Id::verify_name` from `id.rs`: reject names longer than 10 or
shorter than 3 characters. -/
def Id.verify_name (name : String) : Except LibErr Unit :=
  if name.length > 10 || name.length < 3 then
    .error (.InvalidName name)
  else
    .ok ()

/-- `Id::new` from `id.rs`; the `now` argument models the
`timestamp()` call. -/
def Id.new (name : String) (now : Nat) : Except LibErr Id :=
  match Id.verify_name name with
  | .error e => .error e
  | .ok _ => .ok { name := name, sign := now }

/-- `TargetMode` from `packet.rs`. -/
inductive TargetMode where
  | Broadcast
  | Multicast (ids : List Id)
  | Unicast (id : Id)
deriving DecidableEq, Repr

/-- `ClientPacket` from `packet.rs`. -/
inductive ClientPacket where
  | Connect
  | Disconnect
  | Message (target : TargetMode) (text : String)
  | RequestPeers
deriving DecidableEq, Repr

/-- `DisconnectReason` from `packet.rs`. -/
inductive DisconnectReason where
  | Manual
  | Timeout
deriving DecidableEq, Repr

/-- `ServerPacket` from `packet.rs`. -/
inductive ServerPacket where
  | PeerConnected (id : Id)
  | PeerDisconnected (id : Id) (reason : DisconnectReason)
  | PeerTimedOut (id : Id)
  | Message (source : Id) (target_mode : TargetMode) (text : String)
  | RequestReply (ids : List Id)
deriving DecidableEq, Repr

/-- `PacketType` from `packet.rs`. -/
inductive PacketType where
  | Client (p : ClientPacket)
  | Server (p : ServerPacket)
  | Heartbeat
deriving DecidableEq, Repr

/-- `PacketType::client` from `packet.rs`. -/
def PacketType.client : PacketType → Option ClientPacket
  | .Client p => some p
  | _ => none

/-- `PacketType::server` from `packet.rs`. -/
def PacketType.server : PacketType → Option ServerPacket
  | .Server p => some p
  | _ => none

/-- Abbreviated Rust debug string of a `ClientPacket` (the payload of
`Message` is elided). -/
def ClientPacket.dbg : ClientPacket → String
  | .Connect => "Connect"
  | .Disconnect => "Disconnect"
  | .Message _ _ => "Message"
  | .RequestPeers => "RequestPeers"

/-- `PacketHeader` from `header.rs`. -/
structure PacketHeader where
  source : Id
  timestamp : Nat
deriving DecidableEq, Repr

/-- `Packet` from `packet.rs`. -/
structure Packet where
  header : PacketHeader
  payload : PacketType
deriving DecidableEq, Repr

/-- `Metrics` from `util.rs`; `last_transfer` is an `Instant` modelled
as a rational time stamp. -/
structure Metrics where
  bytes_transfer : Nat
  packets_transfer : Nat
  last_transfer : ℚ
deriving DecidableEq, Repr

/-- `Metrics::new` from `util.rs` (the `Instant::now()` becomes the
explicit `now`). -/
def Metrics.new (now : ℚ) : Metrics :=
  { bytes_transfer := 0, packets_transfer := 0, last_transfer := now }

/-- `Metrics::transfer` from `util.rs`: `u128`/`u64` counters wrap. -/
def Metrics.transfer (m : Metrics) (now : ℚ) (size : Nat) : Metrics :=
  { bytes_transfer := (m.bytes_transfer + size) % 2 ^ 128,
    packets_transfer := (m.packets_transfer + 1) % 2 ^ 64,
    last_transfer := now }

/-- `ConnectionState` from `conn.rs`. -/
inductive ConnectionState where
  | Connecting
  | Approving
  | Established
deriving DecidableEq, Repr

/-- `UdpConnection` from `conn.rs`. -/
structure UdpConnection where
  addr : SocketAddr
  conn_state : ConnectionState
  id : Option Id
  send_m : Metrics
  recv_m : Metrics
deriving DecidableEq, Repr

/-- `UdpConnection::new` from `conn.rs`. -/
def UdpConnection.new (addr : SocketAddr) (conn_state : ConnectionState)
    (id : Option Id) (now : ℚ) : UdpConnection :=
  { addr := addr, conn_state := conn_state, id := id,
    send_m := Metrics.new now, recv_m := Metrics.new now }

/-- `UdpConnection::outgoing` from `conn.rs`. -/
def UdpConnection.outgoing (addr : SocketAddr) (now : ℚ) : UdpConnection :=
  UdpConnection.new addr .Connecting none now

/-- `UdpConnection::incoming` from `conn.rs`: goes straight to
`Established`. -/
def UdpConnection.incoming (addr : SocketAddr) (id : Id) (now : ℚ) :
    UdpConnection :=
  UdpConnection.new addr .Established (some id) now

/-- `UdpConnection::connect` from `conn.rs`. -/
def UdpConnection.connect (c : UdpConnection) (id : Id) : UdpConnection :=
  { c with conn_state := .Established, id := some id }

/-- `UdpConnection::approve` from `conn.rs`. -/
def UdpConnection.approve (c : UdpConnection) : UdpConnection :=
  { c with conn_state := .Established }

/-- `UdpConnection::send` from `conn.rs`. -/
def UdpConnection.send (c : UdpConnection) (now : ℚ) (size : Nat) :
    UdpConnection :=
  { c with send_m := c.send_m.transfer now size }

/-- `UdpConnection::recv` from `conn.rs`. -/
def UdpConnection.recv (c : UdpConnection) (now : ℚ) (size : Nat) :
    UdpConnection :=
  { c with recv_m := c.recv_m.transfer now size }

/-- Lookup in an association-list map (first matching key, as a
`HashMap` with unique keys). -/
def mapLookup {α β : Type} [DecidableEq α] (m : List (α × β)) (k : α) :
    Option β :=
  match m with
  | [] => none
  | (k', v) :: rest => if k' = k then some v else mapLookup rest k

/-- In-place update of the value at key `k` (Rust `get_mut`
mutation); entries with other keys are untouched. -/
def mapUpdate {α β : Type} [DecidableEq α] (m : List (α × β)) (k : α)
    (v : β) : List (α × β) :=
  match m with
  | [] => []
  | (k', v') :: rest =>
      if k' = k then (k, v) :: mapUpdate rest k v
      else (k', v') :: mapUpdate rest k v

/-- Removal of key `k` (Rust `HashMap::remove`). -/
def mapErase {α β : Type} [DecidableEq α] (m : List (α × β)) (k : α) :
    List (α × β) :=
  m.filter (fun p => !(decide (p.1 = k)))

/-- The key set of an association-list map. -/
def mapKeys {α β : Type} (m : List (α × β)) : List α :=
  m.map (fun p => p.1)

/-- `AdapterConfig` from `adapter.rs` (`port`, `max_conns` are `u16`;
no arithmetic is performed on them). -/
structure AdapterConfig where
  port : Nat
  max_conns : Nat
deriving DecidableEq, Repr

/-- `UdpSharedState` from `shared_state.rs`: the connection table.  The
socket itself is an external collaborator and does not appear. -/
structure UdpSharedState where
  running : Bool
  conns : List (SocketAddr × UdpConnection)
  conn_ids : List (Id × SocketAddr)
  config : AdapterConfig
deriving DecidableEq, Repr

/-- `UdpSharedState::new` from `shared_state.rs`: empty maps, running. -/
def UdpSharedState.new (config : AdapterConfig) : UdpSharedState :=
  { running := true, conns := [], conn_ids := [], config := config }

/-- `UdpSharedState::shutdown` from `shared_state.rs`. -/
def UdpSharedState.shutdown (s : UdpSharedState) : UdpSharedState :=
  { s with running := false }

/-- `UdpSharedState::add_conn` from `shared_state.rs`.  Returns the new
table together with the `TResult`; on an error the table is returned as
it was (the Rust code errors before mutating). -/
def UdpSharedState.add_conn (s : UdpSharedState) (conn : UdpConnection) :
    UdpSharedState × Except LibErr Unit :=
  if (mapLookup s.conns conn.addr).isSome then
    (s, .error (.PeerAlreadyConnected conn.addr))
  else if s.config.max_conns ≤ s.conns.length then
    (s, .error (.MaxConnectionsReached s.conns.length))
  else
    ({ s with conns := (conn.addr, conn) :: s.conns }, .ok ())

/-- `UdpSharedState::remove_conn` from `shared_state.rs`. -/
def UdpSharedState.remove_conn (s : UdpSharedState) (addr : SocketAddr) :
    UdpSharedState × Option UdpConnection :=
  match mapLookup s.conns addr with
  | some conn => ({ s with conns := mapErase s.conns addr }, some conn)
  | none => (s, none)

/-- `UdpSharedState::conn_addrs` from `shared_state.rs`. -/
def UdpSharedState.conn_addrs (s : UdpSharedState) : List SocketAddr :=
  mapKeys s.conns

/-- `UdpAdapterEvent` from `event.rs`. -/
inductive UdpAdapterEvent where
  | PeerConnect (addr : SocketAddr) (packet : Packet)
  | PeerDisconnect (addr : SocketAddr) (id : Option Id)
      (reason : DisconnectReason)
  | Payload (addr : SocketAddr) (packet : Packet)
deriving DecidableEq, Repr

/-- `SendMode` from `adapter.rs`. -/
inductive SendMode where
  | Broadcast
  | Multicast (addrs : List SocketAddr)
  | Unicast (addr : SocketAddr)
deriving DecidableEq, Repr

/-- `SendCommand` from `adapter.rs`. -/
structure SendCommand where
  mode : SendMode
  packet : PacketType
deriving DecidableEq, Repr

/-- `UDP_HEARTBEAT_INTERVAL` from `adapter.rs` (`1.25` seconds; the
float literal is exactly `5/4`). -/
def UDP_HEARTBEAT_INTERVAL : ℚ := 5 / 4

/-- `UDP_HEARTBEAT_INTERVAL_GRACE` from `adapter.rs`
(`UDP_HEARTBEAT_INTERVAL * 3.`). -/
def UDP_HEARTBEAT_INTERVAL_GRACE : ℚ := UDP_HEARTBEAT_INTERVAL * 3

/-- The receive-idle threshold tested by `UdpAdapter::maintain_conns`:
`UDP_HEARTBEAT_INTERVAL_GRACE * 1.25` (the float literal `1.25` is
exactly `5/4`). -/
def maintainTimeoutThreshold : ℚ := UDP_HEARTBEAT_INTERVAL_GRACE * (5 / 4)

namespace UdpAdapter

/-- `UdpAdapter::send_packet` from `adapter.rs`, restricted to its state
effect: for every target address that has a known connection, its send
metrics are updated; the socket transmit itself is external.  `size` is
the length of the encoded packet bytes (the codec is opaque). -/
def send_packet (s : UdpSharedState) (addrs : List SocketAddr) (now : ℚ)
    (size : Nat) : UdpSharedState :=
  addrs.foldl
    (fun st addr =>
      match mapLookup st.conns addr with
      | some conn =>
          { st with conns := mapUpdate st.conns addr (conn.send now size) }
      | none => st)
    s

/-- `UdpAdapter::recv_packet` from `adapter.rs`: the decoded packet of
`size` bytes arrived from `addr`.  Returns the new table state and the
events published on the event queue. -/
def recv_packet (s : UdpSharedState) (now : ℚ) (addr : SocketAddr)
    (size : Nat) (packet : Packet) :
    UdpSharedState × List UdpAdapterEvent :=
  match mapLookup s.conns addr with
  | some conn =>
      let s' := { s with conns := mapUpdate s.conns addr (conn.recv now size) }
      match packet.payload with
      | .Heartbeat => (s', [])
      | _ => (s', [.Payload addr packet])
  | none =>
      match packet.payload with
      | .Heartbeat => (s, [])
      | _ => (s, [.PeerConnect addr packet])

/-- `UdpAdapter::maintain_conns` from `adapter.rs`: collect the
addresses whose outbound side is idle for at least the heartbeat
interval, publish a timeout `PeerDisconnect` event for every connection
whose inbound side is idle for at least the grace threshold, then send
a heartbeat (of encoded size `hbSize`) to the collected addresses. -/
def maintain_conns (s : UdpSharedState) (now : ℚ) (hbSize : Nat) :
    UdpSharedState × List UdpAdapterEvent :=
  let notify_addrs :=
    (s.conns.filter
      (fun p =>
        decide (UDP_HEARTBEAT_INTERVAL ≤ now - p.2.send_m.last_transfer))).map
      (fun p => p.2.addr)
  let evs :=
    (s.conns.filter
      (fun p =>
        decide (maintainTimeoutThreshold ≤ now - p.2.recv_m.last_transfer))).map
      (fun p => UdpAdapterEvent.PeerDisconnect p.2.addr p.2.id .Timeout)
  (send_packet s notify_addrs now hbSize, evs)

end UdpAdapter

/-- `Server` from `server.rs`: own identity plus the shared connection
table (the adapter queues are modelled by explicit inputs/outputs). -/
structure Server where
  id : Id
  shared : UdpSharedState
deriving DecidableEq, Repr

/-- Result of one server event-handler call: the table state afterwards
together with the commands queued on the send queue, a protocol error
(the table as it was when the error was raised), or a Rust panic
(`todo!()` or `Option::unwrap` on `None`). -/
inductive SrvRes where
  | ok (st : UdpSharedState) (out : List SendCommand)
  | err (st : UdpSharedState) (e : LibErr)
  | panicked
deriving DecidableEq, Repr

namespace Server

/-- `Server::handle_connect_event` from `server.rs`: only
`Client::Connect` registers an (immediately `Established`) incoming
connection and broadcasts `PeerConnected`; every other client packet is
an `InvalidPacketType` error. -/
def handle_connect_event (srv : Server) (now : ℚ) (addr : SocketAddr)
    (id : Id) (packet : ClientPacket) : SrvRes :=
  match packet with
  | .Connect =>
      match srv.shared.add_conn (UdpConnection.incoming addr id now) with
      | (s', .ok _) =>
          .ok s' [{ mode := .Broadcast,
                    packet := .Server (.PeerConnected id) }]
      | (s', .error e) => .err s' e
  | p => .err srv.shared (.InvalidPacketType p.dbg)

/-- `Server::handle_disconnect_event` from `server.rs`: remove the
connection (error `PeerNotConnected` if absent); if it had reached
`Established`, broadcast `PeerDisconnected(id.unwrap(), reason)` —
an event without an identity panics there. -/
def handle_disconnect_event (srv : Server) (addr : SocketAddr)
    (id : Option Id) (reason : DisconnectReason) : SrvRes :=
  match srv.shared.remove_conn addr with
  | (s', some conn) =>
      if conn.conn_state = .Established then
        match id with
        | some i =>
            .ok s' [{ mode := .Broadcast,
                      packet := .Server (.PeerDisconnected i reason) }]
        | none => .panicked
      else
        .ok s' []
  | (_, none) => .err srv.shared (.PeerNotConnected addr)

/-- The multicast address resolution inside
`Server::handle_payload_event`: the addresses of the connections whose
bound identity is in `ids`. -/
def multicast_addrs (s : UdpSharedState) (ids : List Id) :
    List SocketAddr :=
  s.conns.filterMap
    (fun p =>
      match p.2.id with
      | some i => if i ∈ ids then some p.2.addr else none
      | none => none)

/-- The peer-identity list built by the `RequestPeers` arm of
`Server::handle_payload_event`: every bound identity in the table. -/
def request_ids (s : UdpSharedState) : List Id :=
  s.conns.filterMap (fun p => p.2.id)

/-- `Server::handle_payload_event` from `server.rs`.  The
`TargetMode::Unicast` arm is Rust `todo!()` and panics. -/
def handle_payload_event (srv : Server) (addr : SocketAddr) (id : Id)
    (packet : ClientPacket) : SrvRes :=
  match packet with
  | .Disconnect => handle_disconnect_event srv addr (some id) .Manual
  | .Message target_mode text =>
      match target_mode with
      | .Broadcast =>
          .ok srv.shared
            [{ mode := .Broadcast,
               packet := .Server (.Message id target_mode text) }]
      | .Multicast ids =>
          .ok srv.shared
            [{ mode := .Multicast (multicast_addrs srv.shared ids),
               packet := .Server (.Message id (.Multicast ids) text) }]
      | .Unicast _ => .panicked
  | .RequestPeers =>
      .ok srv.shared
        [{ mode := .Unicast addr,
           packet := .Server (.RequestReply (request_ids srv.shared)) }]
  | p => .err srv.shared
      (.InvalidPacketType ("Expected disconnect/message/request. Recv: "
        ++ p.dbg))

/-- `Server::handle_event` from `server.rs`: dispatch one adapter
event.  A `PeerConnect` whose payload is not a client packet is logged
and ignored (`Ok(())`); a `Payload` whose payload is not a client
packet is an `InvalidPacketType` error. -/
def handle_event (srv : Server) (now : ℚ) (ev : UdpAdapterEvent) :
    SrvRes :=
  match ev with
  | .PeerConnect addr packet =>
      match packet.payload.client with
      | some cp =>
          handle_connect_event srv now addr packet.header.source cp
      | none => .ok srv.shared []
  | .PeerDisconnect addr id reason =>
      handle_disconnect_event srv addr id reason
  | .Payload addr packet =>
      match packet.payload.client with
      | some cp => handle_payload_event srv addr packet.header.source cp
      | none =>
          .err srv.shared
            (.InvalidPacketType "Expected client type packet")

end Server

/-- `Client` from `client.rs`: own identity, known peers, chat log, the
optional pending/active remote address and the shared table. -/
structure Client where
  id : Id
  peers : List Id
  chat_log : List (Id × String)
  remote_addr : Option SocketAddr
  shared : UdpSharedState
deriving DecidableEq, Repr

/-- Result of one client event-handler call: the client state
afterwards, a protocol error (with the state when it was raised), or a
Rust panic (`Option::unwrap` on `None`). -/
inductive CliRes where
  | ok (c : Client)
  | err (c : Client) (e : LibErr)
  | panicked
deriving DecidableEq, Repr

namespace Client

/-- `Client::connecting` from `client.rs`: a remote address is set. -/
def connecting (c : Client) : Bool :=
  c.remote_addr.isSome

/-- `Client::connected` from `client.rs`: the bound identity of the
connection at the remote address, when there is one. -/
def connected (c : Client) : Option Id :=
  match c.remote_addr with
  | some addr => (mapLookup c.shared.conns addr).bind (fun conn => conn.id)
  | none => none

/-- `Client::reset_connection` from `client.rs`: clear the remote
address and drop the connection record. -/
def reset_connection (c : Client) : CliRes :=
  match c.remote_addr with
  | some addr =>
      .ok { c with remote_addr := none,
                   shared := (c.shared.remove_conn addr).1 }
  | none => .err c .NotConnected

/-- `Client::handle_connect_event` from `client.rs`: handshake-phase
interpretation of a server packet.  `PeerConnected` addressed to self
binds the server identity through
`conns.get_mut(&addr).unwrap().connect(source_id)` — a missing
connection record panics there. -/
def handle_connect_event (c : Client) (addr : SocketAddr)
    (source_id : Id) (packet : ServerPacket) : CliRes :=
  match packet with
  | .PeerConnected id =>
      if c.id = id then
        match mapLookup c.shared.conns addr with
        | some conn =>
            .ok { c with
                  shared := { c.shared with
                    conns := mapUpdate c.shared.conns addr
                      (conn.connect source_id) } }
        | none => .panicked
      else
        .ok { c with peers := c.peers.insert id }
  | .PeerDisconnected id _ =>
      if c.id = source_id then
        reset_connection c
      else
        .ok { c with peers := c.peers.erase id }
  | _ => .err c
      (.InvalidPacketType "Expected peer connected packet from server")

/-- `Client::handle_payload` from `client.rs`: steady-state
interpretation of a server packet. -/
def handle_payload (c : Client) (packet : ServerPacket) : CliRes :=
  match packet with
  | .Message source _ text =>
      .ok { c with chat_log := c.chat_log ++ [(source, text)] }
  | .RequestReply _ => .ok c
  | _ => .err c
      (.InvalidPacketType "Expected server request or message packet")

/-- `Client::handle_event` from `client.rs`: dispatch one adapter
event.  `PeerDisconnect` removes the connection record (a missing
record is tolerated) but leaves `remote_addr` set. -/
def handle_event (c : Client) (ev : UdpAdapterEvent) : CliRes :=
  match ev with
  | .PeerConnect _ _ =>
      .err c (.InvalidPacketType
        "Client received invalid connection packet")
  | .PeerDisconnect addr _ _ =>
      .ok { c with shared := (c.shared.remove_conn addr).1 }
  | .Payload addr packet =>
      match packet.payload.server with
      | some sp =>
          match connected c with
          | some _ => handle_payload c sp
          | none => handle_connect_event c addr packet.header.source sp
      | none => .err c (.InvalidPacketType "Expected server type packet")

end Client

/-- The connection-table states reachable through the operations the
repository performs on `UdpSharedState`: construction, `add_conn`,
`remove_conn`, `shutdown`, the adapter receive/send/maintenance passes,
and the client binding an identity through
`conns.get_mut(..).connect(..)` (`client.rs`). -/
inductive ReachableState : UdpSharedState → Prop where
  | init (config : AdapterConfig) : ReachableState (UdpSharedState.new config)
  | shutdown {s : UdpSharedState} :
      ReachableState s → ReachableState s.shutdown
  | add {s : UdpSharedState} (conn : UdpConnection) :
      ReachableState s → ReachableState (s.add_conn conn).1
  | remove {s : UdpSharedState} (addr : SocketAddr) :
      ReachableState s → ReachableState (s.remove_conn addr).1
  | send {s : UdpSharedState} (addrs : List SocketAddr) (now : ℚ)
      (size : Nat) :
      ReachableState s →
      ReachableState (UdpAdapter.send_packet s addrs now size)
  | recv {s : UdpSharedState} (now : ℚ) (addr : SocketAddr) (size : Nat)
      (packet : Packet) :
      ReachableState s →
      ReachableState (UdpAdapter.recv_packet s now addr size packet).1
  | maintain {s : UdpSharedState} (now : ℚ) (hbSize : Nat) :
      ReachableState s →
      ReachableState (UdpAdapter.maintain_conns s now hbSize).1
  | bindIdentity {s : UdpSharedState} (addr : SocketAddr)
      (conn : UdpConnection) (i : Id) :
      ReachableState s → mapLookup s.conns addr = some conn →
      ReachableState
        { s with conns := mapUpdate s.conns addr (conn.connect i) }

/-- The §3 table invariant: every `identity → address` entry points at
a connection in `Established` state. -/
def idMapEstablishedOnly (s : UdpSharedState) : Prop :=
  ∀ p ∈ s.conn_ids, ∃ conn,
    mapLookup s.conns p.2 = some conn ∧
    conn.conn_state = ConnectionState.Established

/-! Concrete fixtures used by the witness theorems. -/

def exId : Id := { name := "Ann", sign := 1 }

def exId2 : Id := { name := "Bob", sign := 2 }

def exAddr : SocketAddr := { ip := 1, port := 10 }

def exAddr2 : SocketAddr := { ip := 2, port := 20 }

def exHdr : PacketHeader := { source := exId2, timestamp := 0 }

def exConn : UdpConnection := UdpConnection.incoming exAddr exId 0

def exConnC : UdpConnection := UdpConnection.outgoing exAddr 0

def exConn2 : UdpConnection := UdpConnection.incoming exAddr2 exId2 0

def exConfig : AdapterConfig := { port := 4440, max_conns := 2 }

def sEmpty : UdpSharedState := UdpSharedState.new exConfig

def sTable1 : UdpSharedState :=
  { running := true, conns := [(exAddr, exConn)], conn_ids := [],
    config := exConfig }

def sTableC : UdpSharedState := { sTable1 with conns := [(exAddr, exConnC)] }

def sTableFull : UdpSharedState :=
  { sTable1 with config := { port := 4440, max_conns := 1 } }

def exServer : Server := { id := exId2, shared := sTable1 }

def hbPacket : Packet := { header := exHdr, payload := .Heartbeat }

def msgPacket : Packet :=
  { header := { source := exId, timestamp := 3 },
    payload := .Client (.Message .Broadcast "hi") }

def discPacket : Packet :=
  { header := { source := exId, timestamp := 3 },
    payload := .Client .Disconnect }

def srvPacket : Packet :=
  { header := exHdr, payload := .Server (.PeerConnected exId) }

def cliBefore : Client :=
  { id := exId, peers := [], chat_log := [], remote_addr := some exAddr,
    shared := sTable1 }

def cliAfter : Client :=
  { cliBefore with shared := (cliBefore.shared.remove_conn exAddr).1 }

/-! Helper lemmas about the association-list map operations. -/

theorem mapKeys_mapUpdate {α β : Type} [DecidableEq α]
    (m : List (α × β)) (k : α) (v : β) :
    mapKeys (mapUpdate m k v) = mapKeys m := by
  induction m with
  | nil => rfl
  | cons p rest ih =>
      obtain ⟨pk, pv⟩ := p
      by_cases hk : pk = k
      · subst hk
        simp only [mapUpdate, mapKeys, List.map_cons, if_pos rfl]
        exact congrArg (List.cons pk) ih
      · simp only [mapUpdate, mapKeys, List.map_cons, if_neg hk]
        exact congrArg (List.cons pk) ih

theorem mapLookup_mapUpdate_self {α β : Type} [DecidableEq α]
    (m : List (α × β)) (k : α) (v c : β)
    (h : mapLookup m k = some c) :
    mapLookup (mapUpdate m k v) k = some v := by
  induction m with
  | nil => simp [mapLookup] at h
  | cons p rest ih =>
      obtain ⟨pk, pv⟩ := p
      by_cases hk : pk = k
      · simp [mapUpdate, mapLookup, hk]
      · simp only [mapLookup, hk, if_neg, if_false] at h
        simp [mapUpdate, mapLookup, hk, ih h]

theorem mapLookup_mapUpdate_other {α β : Type} [DecidableEq α]
    (m : List (α × β)) (k a : α) (v : β) (hne : a ≠ k) :
    mapLookup (mapUpdate m k v) a = mapLookup m a := by
  induction m with
  | nil => rfl
  | cons p rest ih =>
      obtain ⟨pk, pv⟩ := p
      by_cases hk : pk = k
      · have hka : ¬ (k = a) := fun h => hne h.symm
        subst hk
        simp [mapUpdate, mapLookup, hka, ih]
      · simp [mapUpdate, mapLookup, hk, ih]

theorem mapLookup_mapErase_self {α β : Type} [DecidableEq α]
    (m : List (α × β)) (k : α) :
    mapLookup (mapErase m k) k = none := by
  induction m with
  | nil => rfl
  | cons p rest ih =>
      by_cases hk : p.1 = k
      · simpa [mapErase, hk] using ih
      · simpa [mapErase, mapLookup, hk] using ih

/-! Helper lemmas about the adapter send pass (one fold step and the
whole fold): the key set, every connection's non-metric fields, its
receive metrics, and the `conn_ids`/`running`/`config` fields are
untouched; only send metrics may change. -/

theorem send_packet_preserves (addrs : List SocketAddr)
    (s : UdpSharedState) (now : ℚ) (size : Nat) :
    mapKeys (UdpAdapter.send_packet s addrs now size).conns =
      mapKeys s.conns ∧
    (∀ a c, mapLookup s.conns a = some c → ∃ c',
      mapLookup (UdpAdapter.send_packet s addrs now size).conns a =
        some c' ∧
      c'.addr = c.addr ∧ c'.conn_state = c.conn_state ∧ c'.id = c.id ∧
      c'.recv_m = c.recv_m) ∧
    (UdpAdapter.send_packet s addrs now size).conn_ids = s.conn_ids ∧
    (UdpAdapter.send_packet s addrs now size).running = s.running ∧
    (UdpAdapter.send_packet s addrs now size).config = s.config := by
  induction addrs generalizing s with
  | nil =>
      refine ⟨rfl, ?_, rfl, rfl, rfl⟩
      exact fun a c h => ⟨c, h, rfl, rfl, rfl, rfl⟩
  | cons addr rest ih =>
      have hstep : UdpAdapter.send_packet s (addr :: rest) now size =
          UdpAdapter.send_packet
            (match mapLookup s.conns addr with
             | some conn =>
                { s with conns := mapUpdate s.conns addr (conn.send now size) }
             | none => s) rest now size := by
        rfl
      rcases hl : mapLookup s.conns addr with _ | conn
      · rw [hstep, hl]
        exact ih s
      · rw [hstep, hl]
        set s1 : UdpSharedState :=
          { s with conns := mapUpdate s.conns addr (conn.send now size) }
          with hs1
        obtain ⟨ihk, ihp, ihids, ihrun, ihcfg⟩ := ih s1
        refine ⟨?_, ?_, ?_, ?_, ?_⟩
        · rw [ihk, hs1]
          exact mapKeys_mapUpdate s.conns addr (conn.send now size)
        · intro a c hc
          by_cases ha : a = addr
          · subst ha
            have hc' : c = conn := by
              rw [hl] at hc
              exact (Option.some.inj hc).symm
            have hl1 : mapLookup s1.conns a = some (conn.send now size) :=
              mapLookup_mapUpdate_self s.conns a (conn.send now size) conn hl
            obtain ⟨c', hc'', h1, h2, h3, h4⟩ := ihp a (conn.send now size) hl1
            exact ⟨c', hc'',
              by rw [h1, hc']; rfl,
              by rw [h2, hc']; rfl,
              by rw [h3, hc']; rfl,
              by rw [h4, hc']; rfl⟩
          · have hl1 : mapLookup s1.conns a = some c := by
              rw [hs1]
              simpa [mapLookup_mapUpdate_other s.conns addr a
                (conn.send now size) ha] using hc
            exact ihp a c hl1
        · rw [ihids]
        · rw [ihrun]
        · rw [ihcfg]

/-! Claim theorems. -/

/-- C6: `Id::new(name)` succeeds (with the given name and time stamp)
iff the name length is between 3 and 10 inclusive, and otherwise fails
with `InvalidName` carrying the offending name. -/
theorem id_new_validation (name : String) (now : Nat) :
    Id.new name now =
      (if 3 ≤ name.length ∧ name.length ≤ 10 then
        Except.ok { name := name, sign := now }
      else Except.error (LibErr.InvalidName name)) ∧
    ((∃ id, Id.new name now = Except.ok id) ↔
      (3 ≤ name.length ∧ name.length ≤ 10)) := by
  by_cases h : 3 ≤ name.length ∧ name.length ≤ 10
  · have hb : (decide (name.length > 10) || decide (name.length < 3)) =
        false := by
      simp only [Bool.or_eq_false_iff, decide_eq_false_iff_not, not_lt]
      omega
    constructor
    · simp [Id.new, Id.verify_name, hb, h]
    · simp [Id.new, Id.verify_name, hb, h]
  · have hb : (decide (name.length > 10) || decide (name.length < 3)) =
        true := by
      simp only [Bool.or_eq_true, decide_eq_true_eq]
      omega
    constructor
    · simp [Id.new, Id.verify_name, hb, h]
    · simp [Id.new, Id.verify_name, hb, h]

/-- C8 counterexample: the maintenance-pass timeout threshold is NOT
`4.6875` times the heartbeat interval (that would be `375/64` seconds;
the threshold is `75/16` seconds). -/
theorem timeout_threshold_not_4_6875_times_interval :
    maintainTimeoutThreshold ≠ (75 / 16 : ℚ) * UDP_HEARTBEAT_INTERVAL := by
  norm_num [maintainTimeoutThreshold, UDP_HEARTBEAT_INTERVAL_GRACE,
    UDP_HEARTBEAT_INTERVAL]

/-- C8 (amended): the heartbeat interval is the fixed constant `1.25`
seconds, the grace is interval `× 3`, and the maintenance timeout
threshold is interval `× 3 × 1.25`, i.e. `3.75` times the interval —
which is `4.6875` seconds because the interval itself is `1.25`
seconds. -/
theorem timeout_threshold_constants :
    UDP_HEARTBEAT_INTERVAL = 5 / 4 ∧
    UDP_HEARTBEAT_INTERVAL_GRACE = UDP_HEARTBEAT_INTERVAL * 3 ∧
    maintainTimeoutThreshold = UDP_HEARTBEAT_INTERVAL * 3 * (5 / 4) ∧
    maintainTimeoutThreshold = (15 / 4) * UDP_HEARTBEAT_INTERVAL ∧
    maintainTimeoutThreshold = 75 / 16 := by
  norm_num [maintainTimeoutThreshold, UDP_HEARTBEAT_INTERVAL_GRACE,
    UDP_HEARTBEAT_INTERVAL]

/-- C2: `add_conn` fails with `PeerAlreadyConnected` when the address
is already present, fails with `MaxConnectionsReached` when the table
is at (or beyond) capacity and the address is absent, and otherwise
inserts the connection; on either failure the table is unchanged. -/
theorem add_conn_spec (s : UdpSharedState) (conn : UdpConnection) :
    ((mapLookup s.conns conn.addr).isSome = true →
      s.add_conn conn = (s, .error (.PeerAlreadyConnected conn.addr))) ∧
    (mapLookup s.conns conn.addr = none →
      s.config.max_conns ≤ s.conns.length →
      s.add_conn conn =
        (s, .error (.MaxConnectionsReached s.conns.length))) ∧
    (mapLookup s.conns conn.addr = none →
      s.conns.length < s.config.max_conns →
      s.add_conn conn =
        ({ s with conns := (conn.addr, conn) :: s.conns }, .ok ())) := by
  refine ⟨fun h => ?_, fun h1 h2 => ?_, fun h1 h2 => ?_⟩
  · simp [UdpSharedState.add_conn, h]
  · simp [UdpSharedState.add_conn, h1, h2]
  · simp [UdpSharedState.add_conn, h1, Nat.not_le.mpr h2]

/-- C2 witness: the three branches of `add_conn_spec` at concrete
tables. -/
theorem add_conn_spec_witness :
    (sTable1.add_conn exConn =
      (sTable1, .error (.PeerAlreadyConnected exConn.addr))) ∧
    (sTableFull.add_conn exConn2 =
      (sTableFull, .error (.MaxConnectionsReached 1))) ∧
    (sEmpty.add_conn exConn =
      ({ sEmpty with conns := [(exConn.addr, exConn)] }, .ok ())) := by
  refine ⟨?_, ?_, ?_⟩
  · exact (add_conn_spec sTable1 exConn).1 (by decide)
  · exact (add_conn_spec sTableFull exConn2).2.1 (by decide) (by decide)
  · exact (add_conn_spec sEmpty exConn).2.2 (by decide) (by decide)

/-- C7: a `Payload` event carrying `Client::Message` with a `Unicast`
target reaches the `todo!()` branch of the server's
`handle_payload_event`: the handler panics (no `TResult` error is
returned). -/
theorem unicast_message_panics (srv : Server) (now : ℚ)
    (addr : SocketAddr) (hdr : PacketHeader) (target : Id)
    (text : String) :
    Server.handle_event srv now
      (.Payload addr
        { header := hdr,
          payload := .Client (.Message (.Unicast target) text) }) =
      SrvRes.panicked := by
  rfl

/-- C1: on a received packet, a `Heartbeat` payload publishes no event;
a non-heartbeat payload publishes exactly one `Payload` event when the
source address is known (updating that connection's receive metrics in
place) and exactly one `PeerConnect` event when it is unknown; an
unknown source never creates a connection (the table is unchanged). -/
theorem recv_packet_spec (s : UdpSharedState) (now : ℚ)
    (addr : SocketAddr) (size : Nat) (packet : Packet) :
    ((UdpAdapter.recv_packet s now addr size packet).2 =
      if packet.payload = PacketType.Heartbeat then []
      else if (mapLookup s.conns addr).isSome then
        [UdpAdapterEvent.Payload addr packet]
      else [UdpAdapterEvent.PeerConnect addr packet]) ∧
    (∀ conn, mapLookup s.conns addr = some conn →
      (UdpAdapter.recv_packet s now addr size packet).1 =
        { s with conns := mapUpdate s.conns addr (conn.recv now size) }) ∧
    (mapLookup s.conns addr = none →
      (UdpAdapter.recv_packet s now addr size packet).1 = s) := by
  unfold UdpAdapter.recv_packet
  rcases h : mapLookup s.conns addr with _ | conn <;>
    rcases hp : packet.payload with p | p | _ <;>
      simp [h, hp]

/-- C1 witness: `recv_packet_spec` at concrete inputs — a heartbeat
publishes nothing, a chat message from the known address publishes one
`Payload` event and updates the receive metrics, a chat message from an
unknown address publishes one `PeerConnect` event and leaves the table
unchanged. -/
theorem recv_packet_spec_witness :
    ((UdpAdapter.recv_packet sTable1 1 exAddr 8 hbPacket).2 = []) ∧
    ((UdpAdapter.recv_packet sTable1 1 exAddr 8 msgPacket).2 =
      [UdpAdapterEvent.Payload exAddr msgPacket]) ∧
    ((UdpAdapter.recv_packet sTable1 1 exAddr 8 msgPacket).1 =
      { sTable1 with
        conns := mapUpdate sTable1.conns exAddr (exConn.recv 1 8) }) ∧
    ((UdpAdapter.recv_packet sTable1 1 exAddr2 8 msgPacket).2 =
      [UdpAdapterEvent.PeerConnect exAddr2 msgPacket]) ∧
    ((UdpAdapter.recv_packet sTable1 1 exAddr2 8 msgPacket).1 =
      sTable1) := by
  refine ⟨?_, ?_, ?_, ?_, ?_⟩
  · rw [(recv_packet_spec sTable1 1 exAddr 8 hbPacket).1]; decide
  · rw [(recv_packet_spec sTable1 1 exAddr 8 msgPacket).1]; decide
  · exact (recv_packet_spec sTable1 1 exAddr 8 msgPacket).2.1 exConn
      (by decide)
  · rw [(recv_packet_spec sTable1 1 exAddr2 8 msgPacket).1]; decide
  · exact (recv_packet_spec sTable1 1 exAddr2 8 msgPacket).2.2 (by decide)

/-- C5 counterexample: a `PeerConnect` event whose payload is a client
packet other than `Connect` (here `Client::Disconnect`) makes
`handle_event` return an `InvalidPacketType` ERROR, not `Ok`: the claim
that every non-`Connect` payload on this event is ignored is false for
client payloads. -/
theorem peer_connect_client_noncon_errors :
    Server.handle_event exServer 0
      (.PeerConnect exAddr2
        { header := { source := exId, timestamp := 3 },
          payload := .Client .Disconnect }) =
      SrvRes.err exServer.shared (.InvalidPacketType "Disconnect") := by
  rfl

/-- C5 (amended): a `PeerConnect` event whose payload is not a client
packet (a `Server` packet or `Heartbeat`) is logged and ignored —
`handle_event` returns `Ok` with the table unchanged; but a CLIENT
payload other than `Connect` fails with `InvalidPacketType` (table
still unchanged). -/
theorem peer_connect_non_connect_spec (srv : Server) (now : ℚ)
    (addr : SocketAddr) (packet : Packet) :
    (packet.payload.client = none →
      Server.handle_event srv now (.PeerConnect addr packet) =
        SrvRes.ok srv.shared []) ∧
    (∀ cp, packet.payload = PacketType.Client cp →
      cp ≠ ClientPacket.Connect →
      Server.handle_event srv now (.PeerConnect addr packet) =
        SrvRes.err srv.shared (.InvalidPacketType cp.dbg)) := by
  constructor
  · intro h
    simp [Server.handle_event, h]
  · intro cp hp hne
    cases cp with
    | Connect => exact absurd rfl hne
    | Disconnect =>
        simp [Server.handle_event, Server.handle_connect_event, hp,
          PacketType.client]
    | Message target text =>
        simp [Server.handle_event, Server.handle_connect_event, hp,
          PacketType.client, ClientPacket.dbg]
    | RequestPeers =>
        simp [Server.handle_event, Server.handle_connect_event, hp,
          PacketType.client]

/-- C5 witness: `peer_connect_non_connect_spec` at concrete inputs — a
`Server`-payload `PeerConnect` is ignored with `Ok`, a
`Client::RequestPeers` one errors. -/
theorem peer_connect_non_connect_spec_witness :
    (Server.handle_event exServer 0 (.PeerConnect exAddr2 srvPacket) =
      SrvRes.ok exServer.shared []) ∧
    (Server.handle_event exServer 0
      (.PeerConnect exAddr2
        { header := exHdr, payload := .Client .RequestPeers }) =
      SrvRes.err exServer.shared (.InvalidPacketType "RequestPeers")) := by
  constructor
  · exact (peer_connect_non_connect_spec exServer 0 exAddr2 srvPacket).1
      rfl
  · exact (peer_connect_non_connect_spec exServer 0 exAddr2
      { header := exHdr, payload := .Client .RequestPeers }).2
      .RequestPeers rfl (by decide)

/-- C4: handling a `PeerDisconnect` event on the server removes the
connection — failing with `PeerNotConnected` (table unchanged) when the
address is unknown — and broadcasts
`Server::PeerDisconnected(identity, reason)` iff the removed connection
had reached `Established` (a connection that never reached
`Established` is removed silently).  The adapter always attaches the
connection's identity to the event when one is bound, so the
`Established` case carries `some i`. -/
theorem handle_disconnect_spec (srv : Server) (now : ℚ)
    (addr : SocketAddr) (oid : Option Id) (reason : DisconnectReason) :
    (mapLookup srv.shared.conns addr = none →
      Server.handle_event srv now (.PeerDisconnect addr oid reason) =
        SrvRes.err srv.shared (.PeerNotConnected addr)) ∧
    (∀ conn i, mapLookup srv.shared.conns addr = some conn →
      conn.conn_state = ConnectionState.Established → oid = some i →
      Server.handle_event srv now (.PeerDisconnect addr oid reason) =
        SrvRes.ok
          { srv.shared with conns := mapErase srv.shared.conns addr }
          [{ mode := .Broadcast,
             packet := .Server (.PeerDisconnected i reason) }]) ∧
    (∀ conn, mapLookup srv.shared.conns addr = some conn →
      conn.conn_state ≠ ConnectionState.Established →
      Server.handle_event srv now (.PeerDisconnect addr oid reason) =
        SrvRes.ok
          { srv.shared with conns := mapErase srv.shared.conns addr }
          []) := by
  refine ⟨fun h => ?_, fun conn i h hest hoid => ?_, fun conn h hne => ?_⟩
  · simp [Server.handle_event, Server.handle_disconnect_event,
      UdpSharedState.remove_conn, h]
  · subst hoid
    simp [Server.handle_event, Server.handle_disconnect_event,
      UdpSharedState.remove_conn, h, hest]
  · simp [Server.handle_event, Server.handle_disconnect_event,
      UdpSharedState.remove_conn, h, hne]

/-- C4 witness: `handle_disconnect_spec` at concrete inputs — unknown
address errors, an `Established` connection is removed with a
broadcast, a `Connecting` connection is removed silently. -/
theorem handle_disconnect_spec_witness :
    (Server.handle_event exServer 0
      (.PeerDisconnect exAddr2 (some exId) .Manual) =
      SrvRes.err exServer.shared (.PeerNotConnected exAddr2)) ∧
    (Server.handle_event exServer 0
      (.PeerDisconnect exAddr (some exId) .Timeout) =
      SrvRes.ok
        { exServer.shared with
          conns := mapErase exServer.shared.conns exAddr }
        [{ mode := .Broadcast,
           packet := .Server (.PeerDisconnected exId .Timeout) }]) ∧
    (Server.handle_event { id := exId2, shared := sTableC } 0
      (.PeerDisconnect exAddr none .Timeout) =
      SrvRes.ok
        { sTableC with conns := mapErase sTableC.conns exAddr } []) := by
  refine ⟨?_, ?_, ?_⟩
  · exact (handle_disconnect_spec exServer 0 exAddr2 (some exId)
      .Manual).1 (by decide)
  · exact (handle_disconnect_spec exServer 0 exAddr (some exId)
      .Timeout).2.1 exConn exId (by decide) (by decide) rfl
  · exact (handle_disconnect_spec { id := exId2, shared := sTableC } 0
      exAddr none .Timeout).2.2 exConnC (by decide) (by decide)

/-- C3: one maintenance pass publishes a timeout `PeerDisconnect` event
for every connection whose inbound side has been idle at least the
timeout-with-grace threshold, and the pass removes nothing from the
table: the key set is unchanged and every connection keeps its address,
state and bound identity (only metrics change). -/
theorem maintain_conns_spec (s : UdpSharedState) (now : ℚ)
    (hbSize : Nat) (addr : SocketAddr) (conn : UdpConnection)
    (hmem : (addr, conn) ∈ s.conns)
    (hstale : maintainTimeoutThreshold ≤ now - conn.recv_m.last_transfer) :
    UdpAdapterEvent.PeerDisconnect conn.addr conn.id
        DisconnectReason.Timeout
      ∈ (UdpAdapter.maintain_conns s now hbSize).2 ∧
    mapKeys (UdpAdapter.maintain_conns s now hbSize).1.conns =
      mapKeys s.conns ∧
    (∀ a c, mapLookup s.conns a = some c → ∃ c',
      mapLookup (UdpAdapter.maintain_conns s now hbSize).1.conns a =
        some c' ∧
      c'.addr = c.addr ∧ c'.conn_state = c.conn_state ∧
      c'.id = c.id) := by
  have h2eq : (UdpAdapter.maintain_conns s now hbSize).2 =
      (s.conns.filter
        (fun p =>
          decide
            (maintainTimeoutThreshold ≤
              now - p.2.recv_m.last_transfer))).map
        (fun p =>
          UdpAdapterEvent.PeerDisconnect p.2.addr p.2.id .Timeout) := rfl
  refine ⟨?_, ?_, ?_⟩
  · rw [h2eq]
    apply List.mem_map.mpr
    refine ⟨(addr, conn), ?_, rfl⟩
    apply List.mem_filter.mpr
    exact ⟨hmem, by simpa using hstale⟩
  · exact (send_packet_preserves _ s now hbSize).1
  · intro a c hc
    obtain ⟨c', h1, h2, h3, h4, _⟩ :=
      (send_packet_preserves _ s now hbSize).2.1 a c hc
    exact ⟨c', h1, h2, h3, h4⟩

/-- C3 witness: `maintain_conns_spec` on a concrete table whose single
connection has been inbound-idle for 5 seconds at threshold 75/16. -/
theorem maintain_conns_spec_witness :
    (UdpAdapterEvent.PeerDisconnect exConn.addr exConn.id
        DisconnectReason.Timeout
      ∈ (UdpAdapter.maintain_conns sTable1 5 4).2) ∧
    (mapKeys (UdpAdapter.maintain_conns sTable1 5 4).1.conns =
      mapKeys sTable1.conns) ∧
    (∃ c', mapLookup (UdpAdapter.maintain_conns sTable1 5 4).1.conns
        exAddr = some c' ∧
      c'.addr = exConn.addr ∧ c'.conn_state = exConn.conn_state ∧
      c'.id = exConn.id) := by
  obtain ⟨h1, h2, h3⟩ :=
    maintain_conns_spec sTable1 5 4 exAddr exConn (by decide)
      (by norm_num [maintainTimeoutThreshold, UDP_HEARTBEAT_INTERVAL_GRACE,
        UDP_HEARTBEAT_INTERVAL, exConn, UdpConnection.incoming,
        UdpConnection.new, Metrics.new])
  exact ⟨h1, h2, h3 exAddr exConn (by decide)⟩

/-! Helper lemmas: no table operation ever touches `conn_ids`. -/

theorem add_conn_conn_ids (s : UdpSharedState) (conn : UdpConnection) :
    (s.add_conn conn).1.conn_ids = s.conn_ids := by
  by_cases h1 : (mapLookup s.conns conn.addr).isSome = true
  · simp [UdpSharedState.add_conn, h1]
  · by_cases h2 : s.config.max_conns ≤ s.conns.length
    · simp [UdpSharedState.add_conn, h1, h2]
    · simp [UdpSharedState.add_conn, h1, h2]

theorem remove_conn_conn_ids (s : UdpSharedState) (addr : SocketAddr) :
    (s.remove_conn addr).1.conn_ids = s.conn_ids := by
  rcases h : mapLookup s.conns addr with _ | conn <;>
    simp [UdpSharedState.remove_conn, h]

theorem recv_packet_conn_ids (s : UdpSharedState) (now : ℚ)
    (addr : SocketAddr) (size : Nat) (packet : Packet) :
    (UdpAdapter.recv_packet s now addr size packet).1.conn_ids =
      s.conn_ids := by
  unfold UdpAdapter.recv_packet
  rcases h : mapLookup s.conns addr with _ | conn <;>
    rcases hp : packet.payload with p | p | _ <;> simp [h, hp]

theorem maintain_conns_conn_ids (s : UdpSharedState) (now : ℚ)
    (hbSize : Nat) :
    (UdpAdapter.maintain_conns s now hbSize).1.conn_ids = s.conn_ids :=
  (send_packet_preserves _ s now hbSize).2.2.1

/-- In every reachable table state the `identity → address` map is the
empty map: no operation in the repository ever inserts into it. -/
theorem reachable_conn_ids (s : UdpSharedState)
    (h : ReachableState s) : s.conn_ids = [] := by
  induction h with
  | init config => rfl
  | shutdown _ ih => exact ih
  | add conn _ ih => rw [add_conn_conn_ids]; exact ih
  | remove addr _ ih => rw [remove_conn_conn_ids]; exact ih
  | send addrs now size _ ih =>
      rw [(send_packet_preserves addrs _ now size).2.2.1]; exact ih
  | recv now addr size packet _ ih =>
      rw [recv_packet_conn_ids]; exact ih
  | maintain now hbSize _ ih =>
      rw [maintain_conns_conn_ids]; exact ih
  | bindIdentity addr conn i _ _ ih => exact ih

/-- C9: in every reachable connection-table state, the
`identity → address` map has entries only for connections in
`Established` state — every table operation preserves the invariant
(in this code base vacuously, because nothing ever inserts into
`conn_ids`). -/
theorem conn_ids_established_only (s : UdpSharedState)
    (h : ReachableState s) : idMapEstablishedOnly s := by
  intro p hp
  rw [reachable_conn_ids s h] at hp
  exact absurd hp (List.not_mem_nil p)

/-- C9 witness: the invariant at a concrete reachable state (one
accepted connection). -/
theorem conn_ids_established_only_witness :
    idMapEstablishedOnly (sEmpty.add_conn exConn).1 :=
  conn_ids_established_only _
    (ReachableState.add exConn (ReachableState.init exConfig))

/-- C10: after the client handles a `PeerDisconnect` event the
connection record is gone from its table but `remote_addr` is still
set, so `connecting()` still reports `true`; handling a subsequent
`Payload` carrying `Server::PeerConnected` with the client's own
identity then unwraps the missing connection entry and panics instead
of returning an error. -/
theorem client_disconnect_leaves_pending_then_panics
    (c : Client) (a : SocketAddr) (oid : Option Id)
    (reason : DisconnectReason) (hdr : PacketHeader) (c' : Client)
    (hra : c.remote_addr = some a)
    (hok : Client.handle_event c (.PeerDisconnect a oid reason) =
      CliRes.ok c') :
    c'.remote_addr = c.remote_addr ∧
    Client.connecting c' = true ∧
    mapLookup c'.shared.conns a = none ∧
    Client.handle_event c'
      (.Payload a
        { header := hdr, payload := .Server (.PeerConnected c.id) }) =
      CliRes.panicked := by
  have hc' : c' = { c with shared := (c.shared.remove_conn a).1 } := by
    have h := hok
    simp [Client.handle_event] at h
    exact h.symm
  subst hc'
  have hnone : mapLookup (c.shared.remove_conn a).1.conns a = none := by
    rcases h : mapLookup c.shared.conns a with _ | conn2
    · simp [UdpSharedState.remove_conn, h]
    · simp [UdpSharedState.remove_conn, h, mapLookup_mapErase_self]
  refine ⟨rfl, ?_, hnone, ?_⟩
  · simp [Client.connecting, hra]
  · simp [Client.handle_event, PacketType.server, Client.connected, hra,
      hnone, Client.handle_connect_event]

/-- C10 witness: the theorem at a concrete connected client — the
record is removed, `connecting()` is still `true`, and the follow-up
handshake payload panics. -/
theorem client_disconnect_panics_witness :
    cliAfter.remote_addr = cliBefore.remote_addr ∧
    Client.connecting cliAfter = true ∧
    mapLookup cliAfter.shared.conns exAddr = none ∧
    Client.handle_event cliAfter
      (.Payload exAddr
        { header := exHdr,
          payload := .Server (.PeerConnected cliBefore.id) }) =
      CliRes.panicked :=
  client_disconnect_leaves_pending_then_panics cliBefore exAddr none
    .Manual exHdr cliAfter rfl rfl

end Tell
